import Mathlib

/-!
Verification of the dual-stack RDS connectivity diagnostic service.

The repository has two variants of the service:
* `OneShot` — `src/unnamed/part_000`: per-request DNS resolution, a raw
  transport reachability check, and a fresh one-shot database connection
  per probe (`mysql2/promise`, async/await with try/catch).
* `PoolVar` — `src/app.js`: startup-time DNS resolution and long-lived
  per-family connection pools (`mysql2` callback API).

JavaScript values are embedded shallowly: possibly-`undefined` values as
`Option`, thrown errors as the error side of `Except`, row sets as lists
of association lists, and JSON response bodies as an explicit `Json`
inductive so that the presence or absence of a field is provable.
-/

/-- A JavaScript `Error` as observed by the service: message plus the
optional fields (`code`, `errno`, `syscall`, `address`, `port`) that the
code reads off mysql/socket errors. -/
structure JsError where
  message : String
  code : Option String := none
  errno : Option Int := none
  syscall : Option String := none
  address : Option String := none
  port : Option Nat := none
deriving Repr, DecidableEq

/-- A single cell value in a SQL result row (JS values that appear in the
diagnostic queries: numbers, strings, SQL NULL). -/
inductive Cell where
  | num (n : Int)
  | str (s : String)
  | null
deriving Repr, DecidableEq

/-- A result row, e.g. `{test: 1}`, as an association list. -/
abbrev Row := List (String × Cell)

/-- A result set as returned by `connection.execute`/`connection.query`. -/
abbrev Rows := List Row

/-- The address family tag (`'IPv4'` / `'IPv6'` in the source). -/
inductive Family where
  | IPv4
  | IPv6
deriving Repr, DecidableEq

/-- Result of resolution, `{ipv4: ipv4Addresses[0], ipv6: ipv6Addresses[0]}`:
indexing past the end of a JS array yields `undefined`, hence `Option`. -/
structure ResolvedAddresses where
  ipv4 : Option String
  ipv6 : Option String
deriving Repr, DecidableEq

/-- A JSON value, used to state facts about response bodies, in
particular which fields an object does and does not carry. -/
inductive Json where
  | str (s : String)
  | num (n : Int)
  | bool (b : Bool)
  | null
  | arr (xs : List Json)
  | obj (fields : List (String × Json))
deriving Repr

/-- Field lookup on a JSON object (`none` on non-objects and missing keys). -/
def Json.lookupField : Json → String → Option Json
  | .obj fields, key => fields.lookup key
  | _, _ => none

/-- Serialization of a possibly-`undefined` string field. -/
def optStrJson : Option String → Json
  | some s => .str s
  | none => .null

def optNatJson : Option Nat → Json
  | some n => .num n
  | none => .null

def cellJson : Cell → Json
  | .num n => .num n
  | .str s => .str s
  | .null => .null

def rowJson (r : Row) : Json :=
  .obj (r.map (fun kv => (kv.1, cellJson kv.2)))

def rowsJson (rs : Rows) : Json :=
  .arr (rs.map rowJson)

namespace OneShot

/-!
Embedding of `src/unnamed/part_000` (the one-shot variant).
-/

/-- The connection configuration composed by `testConnection`
(`{...dbConfig, host: version === 'IPv6' ? `[${host}]` : host,
connectTimeout: 10000, ipv6: version === 'IPv6', debug: true}`).
Only the family-dependent fields and the timeout are modelled; the
constant credential fields carry no behaviour. -/
structure ConnectionConfig where
  host : Option String
  connectTimeout : Nat
  ipv6 : Bool
deriving Repr, DecidableEq

/-- JS template literal `[${host}]`: interpolating `undefined` produces
the string `"undefined"`. -/
def bracketTemplate : Option String → String
  | some s => "[" ++ s ++ "]"
  | none => "[undefined]"

/-- The config built at src/unnamed/part_000 lines 72–78. -/
def connectionConfig (host : Option String) (version : Family) : ConnectionConfig :=
  { host := if version = Family.IPv6 then some (bracketTemplate host) else host
    connectTimeout := 10000
    ipv6 := version = Family.IPv6 }

/-- Outcome environment for one `testConnection` invocation: the
results the outside world (network, MySQL server) hands to each awaited
step. `netCheck` is keyed by the host actually passed to
`testNetworkConnectivity`, `connect` by the composed configuration, and
`query` by the SQL text. -/
structure ProbeEnv where
  netCheck : Option String → Except JsError Unit
  connect : ConnectionConfig → Except JsError Unit
  query : String → Except JsError Rows

/-- First diagnostic query (src/unnamed/part_000 line 90). -/
def sql1 : String := "SELECT 1 as test"

/-- Second diagnostic query (src/unnamed/part_000 line 94). -/
def sql2 : String := "SELECT @@hostname, @@port, DATABASE()"

/-- The structured outcome object built by `testConnection`:
`{success:true, data:{test, connectionInfo}}` or
`{success:false, error, errorDetails:{code, syscall, address, port}}`. -/
inductive ProbeResult where
  | success (test : Rows) (connectionInfo : Rows)
  | failure (error : String) (code : Option String) (syscall : Option String)
      (address : Option String) (port : Option Nat)
deriving Repr, DecidableEq

/-- The `catch` block's conversion of a thrown error into the
`success:false` result object (src/unnamed/part_000 lines 113–122). -/
def failureOf (e : JsError) : ProbeResult :=
  .failure e.message e.code e.syscall e.address e.port

/-- The `success` flag of the result object. -/
def ProbeResult.isSuccess : ProbeResult → Bool
  | .success _ _ => true
  | .failure _ _ _ _ _ => false

/-- The `try` block of `testConnection` (src/unnamed/part_000 lines
80–104) as a fallible computation: transport pre-check, connection
establishment, then the two queries in order; yields the two result
sets. Any step's error propagates (is thrown). -/
def testConnectionBody (host : Option String) (version : Family) (env : ProbeEnv) :
    Except JsError (Rows × Rows) := do
  env.netCheck host
  env.connect (connectionConfig host version)
  let rows ← env.query sql1
  let connectionInfo ← env.query sql2
  pure (rows, connectionInfo)

/-- Instrumented trace of one `testConnection` invocation: the returned
result object, the SQL statements submitted in order, whether a database
connection was established, and how many times `connection.end()` was
called on it. -/
structure ProbeOutcome where
  result : ProbeResult
  queriesExecuted : List String
  connectionOpened : Bool
  closeCalls : Nat
deriving Repr, DecidableEq

/-- Function `testConnection` (src/unnamed/part_000 lines 70–124), traced
step by step. The `try` block runs `testNetworkConnectivity`, then
`mysql.createConnection`, then the two queries, then `connection.end()`
and returns the success object; any thrown error lands in the `catch`
block, which returns the failure object without touching the
connection. -/
def testConnectionFull (host : Option String) (version : Family) (env : ProbeEnv) :
    ProbeOutcome :=
  match env.netCheck host with
  | .error e => { result := failureOf e, queriesExecuted := [], connectionOpened := false, closeCalls := 0 }
  | .ok _ =>
    match env.connect (connectionConfig host version) with
    | .error e => { result := failureOf e, queriesExecuted := [], connectionOpened := false, closeCalls := 0 }
    | .ok _ =>
      match env.query sql1 with
      | .error e => { result := failureOf e, queriesExecuted := [sql1], connectionOpened := true, closeCalls := 0 }
      | .ok rows =>
        match env.query sql2 with
        | .error e => { result := failureOf e, queriesExecuted := [sql1, sql2], connectionOpened := true, closeCalls := 0 }
        | .ok connectionInfo =>
          { result := .success rows connectionInfo
            queriesExecuted := [sql1, sql2]
            connectionOpened := true
            closeCalls := 1 }

/-- Function `resolveHostname` (src/unnamed/part_000 lines 43–68) after
both DNS lookups have completed with the given record lists: throws
`'No IP addresses resolved'` when both lists are empty, otherwise
returns the first record of each family (`undefined` for an empty
list). -/
def resolveHostname (ipv4Addresses ipv6Addresses : List String) :
    Except JsError ResolvedAddresses :=
  if ipv4Addresses.isEmpty && ipv6Addresses.isEmpty then
    .error { message := "No IP addresses resolved" }
  else
    .ok { ipv4 := ipv4Addresses.head?, ipv6 := ipv6Addresses.head? }

/-- Function `resolveHostname` including the `Promise.all` over the two
DNS lookups: a rejected lookup rejects the whole resolution (re-thrown
by the catch block); otherwise the record lists are inspected. -/
def resolveHostnameFull (r4 r6 : Except JsError (List String)) :
    Except JsError ResolvedAddresses :=
  match r4, r6 with
  | .error e, _ => .error e
  | _, .error e => .error e
  | .ok l4, .ok l6 => resolveHostname l4 l6

/-- Serialization of a probe result object as `res.json` renders it:
`{success:true, data:{test, connectionInfo}}` on success,
`{success:false, error, errorDetails:{code, syscall, address, port}}`
on failure. -/
def probeResultJson : ProbeResult → Json
  | .success test connectionInfo =>
      .obj [("success", .bool true),
            ("data", .obj [("test", rowsJson test),
                           ("connectionInfo", rowsJson connectionInfo)])]
  | .failure msg code syscall address port =>
      .obj [("success", .bool false),
            ("error", .str msg),
            ("errorDetails", .obj [("code", optStrJson code),
                                   ("syscall", optStrJson syscall),
                                   ("address", optStrJson address),
                                   ("port", optNatJson port)])]

/-- The 200 response body of `GET /test-connections/dualstack`
(src/unnamed/part_000 lines 183–193): timestamp, both resolved
addresses, and both probe results — these are all its fields. -/
def dualstackResponse (ts : String) (addresses : ResolvedAddresses)
    (ipv4Result ipv6Result : ProbeResult) : Json :=
  .obj [("timestamp", .str ts),
        ("addresses", .obj [("ipv4", optStrJson addresses.ipv4),
                            ("ipv6", optStrJson addresses.ipv6)]),
        ("testResults", .obj [("ipv4", probeResultJson ipv4Result),
                              ("ipv6", probeResultJson ipv6Result)])]

/-- The orchestrating join of the dualstack endpoint
(src/unnamed/part_000 lines 178–181): both probes are run (their
environments are independent) and both results are kept. -/
def probeDualstack (addresses : ResolvedAddresses) (env4 env6 : ProbeEnv) :
    ProbeResult × ProbeResult :=
  ((testConnectionFull addresses.ipv4 Family.IPv4 env4).result,
   (testConnectionFull addresses.ipv6 Family.IPv6 env6).result)

/-- Handler of `GET /test-connections/dualstack` (src/unnamed/part_000
lines 173–201): resolve, probe both families, 200 with both results; a
throw from resolution is caught and answered with status 500. Returns
(HTTP status, body). -/
def dualstackHandler (ts : String) (r4 r6 : Except JsError (List String))
    (env4 env6 : ProbeEnv) : Nat × Json :=
  match resolveHostnameFull r4 r6 with
  | .error e =>
      (500, .obj [("error", .str "Dualstack test failed"),
                  ("message", .str e.message),
                  ("timestamp", .str ts)])
  | .ok addresses =>
      (200, dualstackResponse ts addresses
              (probeDualstack addresses env4 env6).1
              (probeDualstack addresses env4 env6).2)

/-- Handler of `GET /test-connections/ipv4` (src/unnamed/part_000 lines
135–151): resolve, probe the IPv4 address, 200 with the probe result
(successful or not); a throw from resolution is caught and answered with
status 500. Returns (HTTP status, body). -/
def ipv4Handler (ts : String) (r4 r6 : Except JsError (List String))
    (env : ProbeEnv) : Nat × Json :=
  match resolveHostnameFull r4 r6 with
  | .error e =>
      (500, .obj [("error", .str "IPv4 test failed"),
                  ("message", .str e.message),
                  ("timestamp", .str ts)])
  | .ok addresses =>
      (200, .obj [("timestamp", .str ts),
                  ("ipv4Address", optStrJson addresses.ipv4),
                  ("testResult", probeResultJson
                    (testConnectionFull addresses.ipv4 Family.IPv4 env).result)])

/-- Handler of `GET /test-connections/ipv6` (src/unnamed/part_000 lines
154–170), symmetric to the IPv4 one. -/
def ipv6Handler (ts : String) (r4 r6 : Except JsError (List String))
    (env : ProbeEnv) : Nat × Json :=
  match resolveHostnameFull r4 r6 with
  | .error e =>
      (500, .obj [("error", .str "IPv6 test failed"),
                  ("message", .str e.message),
                  ("timestamp", .str ts)])
  | .ok addresses =>
      (200, .obj [("timestamp", .str ts),
                  ("ipv6Address", optStrJson addresses.ipv6),
                  ("testResult", probeResultJson
                    (testConnectionFull addresses.ipv6 Family.IPv6 env).result)])

end OneShot

namespace PoolVar

/-!
Embedding of `src/app.js` (the connection-pool variant).
-/

/-- Removal of every `[` and `]` character, as
`host.replace(/[\[\]]/g, '')` does (src/app.js line 29). -/
def replaceBrackets (s : String) : String :=
  String.mk (s.data.filter (fun c => !(c == '[' || c == ']')))

/-- The family-relevant part of the pool configuration built by
`createPool` (src/app.js lines 22–35): the constant credential fields of
`dbConfig` are omitted as behaviour-free. -/
structure PoolConfig where
  host : String
  family : Option Nat
deriving Repr, DecidableEq

/-- Function `createPool` (src/app.js lines 22–35): the config starts as
`{...dbConfig, host}`; for IPv6 the host has its square brackets
stripped and `family: 6` is set; for IPv4 the host is used as-is. -/
def createPool (host : String) (version : Family) : PoolConfig :=
  if version = Family.IPv6 then
    { host := replaceBrackets host, family := some 6 }
  else
    { host := host, family := none }

/-- The structured outcome object built by the pool-variant
`testConnection`: success carries both result sets; a `getConnection`
error carries `details:{code, errno}`; a query error carries only the
message. -/
inductive ProbeResult where
  | success (test : Rows) (connectionInfo : Rows)
  | connFailure (error : String) (code : Option String) (errno : Option Int)
  | queryFailure (error : String)
deriving Repr, DecidableEq

/-- Outcome environment for one pool-variant `testConnection`
invocation: the result of `pool.getConnection` and of each SQL query on
the obtained connection. -/
structure PoolEnv where
  getConnection : Except JsError Unit
  query : String → Except JsError Rows

/-- Instrumented trace of one pool-variant `testConnection` invocation. -/
structure PoolProbeOutcome where
  result : ProbeResult
  connectionObtained : Bool
  releaseCalls : Nat
deriving Repr, DecidableEq

/-- Function `testConnection` (src/app.js lines 37–81): a
`getConnection` error resolves to a failure object with no connection to
release; a first-query error releases then resolves; the second query
releases first, then resolves failure or success. -/
def testConnection (env : PoolEnv) : PoolProbeOutcome :=
  match env.getConnection with
  | .error e =>
      { result := .connFailure e.message e.code e.errno
        connectionObtained := false
        releaseCalls := 0 }
  | .ok _ =>
    match env.query OneShot.sql1 with
    | .error e =>
        { result := .queryFailure e.message
          connectionObtained := true
          releaseCalls := 1 }
    | .ok rows =>
      match env.query OneShot.sql2 with
      | .error e =>
          { result := .queryFailure e.message
            connectionObtained := true
            releaseCalls := 1 }
      | .ok connectionInfo =>
          { result := .success rows connectionInfo
            connectionObtained := true
            releaseCalls := 1 }

/-- Function `resolveHostname` (src/app.js lines 107–125) after both
sequential DNS lookups have completed: no emptiness check, just the
first record of each family (`undefined` past the end). -/
def resolveHostname (ipv4Addresses ipv6Addresses : List String) :
    ResolvedAddresses :=
  { ipv4 := ipv4Addresses.head?, ipv6 := ipv6Addresses.head? }

end PoolVar

/-!
Concrete values and environments used to instantiate the theorems below.
-/

/-- Modelled from the spec (§4.3, §8): the derived overall dualstack
status — the string is `"success"` iff both sub-results are individually
successful, and `"failed"` otherwise. The source computes no such value;
this spec-side definition exists to compare the spec's notion with the
response the code actually builds. -/
def specOverallStatus (ipv4Result ipv6Result : OneShot.ProbeResult) : String :=
  if ipv4Result.isSuccess && ipv6Result.isSuccess then "success" else "failed"

/-- Result rows of the liveness query `SELECT 1 as test`: `[{test: 1}]`. -/
def testRows : Rows := [[("test", Cell.num 1)]]

/-- Result rows of the server-identity query. -/
def infoRows : Rows :=
  [[("@@hostname", Cell.str "ip-10-0-0-1"), ("@@port", Cell.num 3306),
    ("DATABASE()", Cell.str "V2NCanaryDB")]]

/-- The spec's concrete scenario: the IPv4 probe succeeds with rows
`[{test:1}]`. -/
def exampleIpv4Success : OneShot.ProbeResult := .success testRows infoRows

/-- The spec's concrete scenario: the IPv6 probe fails with
`"connect ETIMEDOUT"`. -/
def exampleIpv6Failure : OneShot.ProbeResult :=
  .failure "connect ETIMEDOUT" (some "ETIMEDOUT") (some "connect")
    (some "2001:db8::1") (some 3306)

/-- The spec's concrete scenario addresses: `10.0.0.1` / `2001:db8::1`. -/
def exampleAddresses : ResolvedAddresses :=
  { ipv4 := some "10.0.0.1", ipv6 := some "2001:db8::1" }

/-- The dualstack response body at the spec's concrete scenario. -/
def exampleDualstackBody : Json :=
  OneShot.dualstackResponse "2024-01-01T00:00:00.000Z" exampleAddresses
    exampleIpv4Success exampleIpv6Failure

/-- Environment in which every step succeeds: the transport check and
the connection succeed, the liveness query returns `[{test:1}]` and the
identity query the server identity rows. -/
def okEnv : OneShot.ProbeEnv :=
  { netCheck := fun _ => .ok ()
    connect := fun _ => .ok ()
    query := fun s => if s = OneShot.sql1 then .ok testRows else .ok infoRows }

/-- The timeout error of the spec's concrete scenario. -/
def timeoutError : JsError :=
  { message := "connect ETIMEDOUT", code := some "ETIMEDOUT",
    errno := some (-110), syscall := some "connect",
    address := some "2001:db8::1", port := some 3306 }

/-- Environment in which the raw transport check times out. -/
def timeoutEnv : OneShot.ProbeEnv :=
  { netCheck := fun _ => .error timeoutError
    connect := fun _ => .ok ()
    query := fun _ => .ok testRows }

/-- The interrupted-query error used for the connection-leak scenario. -/
def queryError : JsError :=
  { message := "Query execution was interrupted",
    code := some "ER_QUERY_INTERRUPTED", errno := some 1317 }

/-- Environment in which the transport check and the connection succeed
but every query fails: the probe reaches the queries with an
established connection and the first query throws. -/
def leakEnv : OneShot.ProbeEnv :=
  { netCheck := fun _ => .ok ()
    connect := fun _ => .ok ()
    query := fun _ => .error queryError }

/-- Environment in which probing an `undefined` address fails at the
transport check (connecting a socket to `undefined` raises) while
probing any real address succeeds. -/
def noneFailEnv : OneShot.ProbeEnv :=
  { netCheck := fun h => match h with
      | none => .error timeoutError
      | some _ => .ok ()
    connect := fun _ => .ok ()
    query := fun s => if s = OneShot.sql1 then .ok testRows else .ok infoRows }

/-!
General helper lemmas.
-/

theorem exceptBindError {ε α β : Type} (e : ε) (f : α → Except ε β) :
    ((Except.error e : Except ε α) >>= f) = Except.error e := rfl

theorem exceptBindOk {ε α β : Type} (a : α) (f : α → Except ε β) :
    ((Except.ok a : Except ε α) >>= f) = f a := rfl

/-- The pool variant does release the obtained connection exactly once
on every exit path, and performs no release when no connection was
obtained (src/app.js lines 37–81). -/
theorem poolvar_release_exactly_once (env : PoolVar.PoolEnv) :
    (PoolVar.testConnection env).releaseCalls =
      (if (PoolVar.testConnection env).connectionObtained then 1 else 0) := by
  unfold PoolVar.testConnection
  cases env.getConnection with
  | error e => rfl
  | ok u =>
    cases env.query OneShot.sql1 with
    | error e => rfl
    | ok rows =>
      cases env.query OneShot.sql2 with
      | error e => rfl
      | ok connectionInfo => rfl

/-!
Claim C1.
-/

/-- Claim C1 counterexample: at the spec's concrete scenario (IPv4 probe
succeeding with rows `[{test:1}]`, IPv6 probe failing with
`"connect ETIMEDOUT"`), the dualstack response carries no `status` field
at all — in particular it does not report an overall status `"failed"`.
The response's only fields are `timestamp`, `addresses` and
`testResults`. -/
theorem dualstack_reports_no_overall_status :
    exampleDualstackBody.lookupField "status" = none ∧
    ¬ exampleDualstackBody.lookupField "status" = some (Json.str "failed") := by
  constructor
  · rfl
  · intro h
    have h0 : exampleDualstackBody.lookupField "status" = none := rfl
    rw [h0] at h
    exact Option.noConfusion h

/-- Claim C1 (amended): for every pair of probe outcomes the dualstack
response attaches both detailed sub-results under `testResults`, but
reports no separate overall-status field; an overall status in the
spec's sense is only derivable from the response, is `"success"` exactly
when both sub-results are individually successful, and is `"failed"` at
the spec's concrete scenario. -/
theorem dualstack_subresults_and_derived_status (ts : String)
    (addresses : ResolvedAddresses) (ipv4Result ipv6Result : OneShot.ProbeResult) :
    (OneShot.dualstackResponse ts addresses ipv4Result ipv6Result).lookupField
        "testResults" =
      some (Json.obj [("ipv4", OneShot.probeResultJson ipv4Result),
                      ("ipv6", OneShot.probeResultJson ipv6Result)]) ∧
    (OneShot.dualstackResponse ts addresses ipv4Result ipv6Result).lookupField
        "status" = none ∧
    (specOverallStatus ipv4Result ipv6Result = "success" ↔
      ipv4Result.isSuccess = true ∧ ipv6Result.isSuccess = true) ∧
    specOverallStatus exampleIpv4Success exampleIpv6Failure = "failed" := by
  refine ⟨rfl, rfl, ?_, rfl⟩
  cases ipv4Result <;> cases ipv6Result <;>
    simp [specOverallStatus, OneShot.ProbeResult.isSuccess]

theorem dualstack_subresults_and_derived_status_witness :
    (OneShot.dualstackResponse "2024-01-01T00:00:00.000Z" exampleAddresses
        exampleIpv4Success exampleIpv6Failure).lookupField "status" = none ∧
    specOverallStatus exampleIpv4Success exampleIpv6Failure = "failed" :=
  ⟨(dualstack_subresults_and_derived_status "2024-01-01T00:00:00.000Z"
      exampleAddresses exampleIpv4Success exampleIpv6Failure).2.1,
   (dualstack_subresults_and_derived_status "2024-01-01T00:00:00.000Z"
      exampleAddresses exampleIpv4Success exampleIpv6Failure).2.2.2⟩

/-!
Claim C2.
-/

/-- Claim C2 fails on the one-shot variant: with the transport check and
the connection establishment succeeding and the first query failing, the
probe returns its Failure result having opened a connection on which
`connection.end()` was never called — the connection leaks (close count
0, not 1). -/
theorem oneshot_query_failure_leaks_connection :
    (OneShot.testConnectionFull (some "10.0.0.1") Family.IPv4 leakEnv).connectionOpened
      = true ∧
    (OneShot.testConnectionFull (some "10.0.0.1") Family.IPv4 leakEnv).closeCalls = 0 ∧
    (OneShot.testConnectionFull (some "10.0.0.1") Family.IPv4 leakEnv).result =
      OneShot.failureOf queryError :=
  ⟨rfl, rfl, rfl⟩

/-!
Claim C3.
-/

/-- Claim C3: for every address, family and environment outcome, the
one-shot `testConnection` returns normally with a `ProbeResult`: when
its `try` body raises an error, the returned result is the Failure
variant carrying that error; when the body completes, the result is the
Success variant carrying the two result sets. -/
theorem testConnection_never_raises (host : Option String) (version : Family)
    (env : OneShot.ProbeEnv) :
    (∃ e, OneShot.testConnectionBody host version env = .error e ∧
      (OneShot.testConnectionFull host version env).result = OneShot.failureOf e) ∨
    (∃ rows connectionInfo,
      OneShot.testConnectionBody host version env = .ok (rows, connectionInfo) ∧
      (OneShot.testConnectionFull host version env).result =
        .success rows connectionInfo) := by
  cases h1 : env.netCheck host with
  | error e =>
      refine Or.inl ⟨e, ?_, ?_⟩
      · simp [OneShot.testConnectionBody, h1, exceptBindError]
      · simp [OneShot.testConnectionFull, h1]
  | ok u1 =>
      cases h2 : env.connect (OneShot.connectionConfig host version) with
      | error e =>
          refine Or.inl ⟨e, ?_, ?_⟩
          · simp [OneShot.testConnectionBody, h1, h2, exceptBindOk, exceptBindError]
          · simp [OneShot.testConnectionFull, h1, h2]
      | ok u2 =>
          cases h3 : env.query OneShot.sql1 with
          | error e =>
              refine Or.inl ⟨e, ?_, ?_⟩
              · simp [OneShot.testConnectionBody, h1, h2, h3, exceptBindOk,
                  exceptBindError]
              · simp [OneShot.testConnectionFull, h1, h2, h3]
          | ok rows =>
              cases h4 : env.query OneShot.sql2 with
              | error e =>
                  refine Or.inl ⟨e, ?_, ?_⟩
                  · simp [OneShot.testConnectionBody, h1, h2, h3, h4, exceptBindOk,
                      exceptBindError]
                  · simp [OneShot.testConnectionFull, h1, h2, h3, h4]
              | ok connectionInfo =>
                  refine Or.inr ⟨rows, connectionInfo, ?_, ?_⟩
                  · simp [OneShot.testConnectionBody, h1, h2, h3, h4, exceptBindOk]
                  · simp [OneShot.testConnectionFull, h1, h2, h3, h4]

/-!
Claim C4.
-/

/-- Claim C4: whenever resolution succeeds, the dualstack handler's
response carries, under `testResults`, both the `ipv4` and the `ipv6`
field, each populated with that family's own probe result — for every
pair of probe environments, hence for all four combinations of
individual probe outcomes; neither probe's failure suppresses the
other's result. -/
theorem dualstack_both_results_always_present (ts : String)
    (r4 r6 : Except JsError (List String)) (env4 env6 : OneShot.ProbeEnv)
    (addresses : ResolvedAddresses)
    (h : OneShot.resolveHostnameFull r4 r6 = .ok addresses) :
    (OneShot.dualstackHandler ts r4 r6 env4 env6).2.lookupField "testResults" =
      some (Json.obj
        [("ipv4", OneShot.probeResultJson
            (OneShot.testConnectionFull addresses.ipv4 Family.IPv4 env4).result),
         ("ipv6", OneShot.probeResultJson
            (OneShot.testConnectionFull addresses.ipv6 Family.IPv6 env6).result)]) := by
  have hh : OneShot.dualstackHandler ts r4 r6 env4 env6 =
      (200, OneShot.dualstackResponse ts addresses
              (OneShot.probeDualstack addresses env4 env6).1
              (OneShot.probeDualstack addresses env4 env6).2) := by
    unfold OneShot.dualstackHandler
    rw [h]
  rw [hh]
  rfl

theorem dualstack_both_results_always_present_witness :
    (OneShot.dualstackHandler "2024-01-01T00:00:00.000Z" (.ok ["10.0.0.1"])
        (.ok ["2001:db8::1"]) okEnv timeoutEnv).2.lookupField "testResults" =
      some (Json.obj
        [("ipv4", OneShot.probeResultJson (.success testRows infoRows)),
         ("ipv6", OneShot.probeResultJson (OneShot.failureOf timeoutError))]) := by
  have h := dualstack_both_results_always_present "2024-01-01T00:00:00.000Z"
    (.ok ["10.0.0.1"]) (.ok ["2001:db8::1"]) okEnv timeoutEnv
    { ipv4 := some "10.0.0.1", ipv6 := some "2001:db8::1" } rfl
  rw [h]
  rfl



/-!
Claim C5.
-/

/-- Claim C5 counterexample: in the pool variant, `createPool` applied
to the IPv6 address `2001:db8::1` does not bracket-wrap the address in
the composed configuration — the composed host is the bare address
(brackets, had there been any, are stripped) and the family is selected
by `family: 6` instead. -/
theorem createPool_ipv6_not_bracket_wrapped :
    ¬ (PoolVar.createPool "2001:db8::1" Family.IPv6).host = "[2001:db8::1]" ∧
    PoolVar.createPool "2001:db8::1" Family.IPv6 =
      { host := "2001:db8::1", family := some 6 } := by
  decide

/-- Claim C5 (amended): the two variants compose the family-specific
target differently. In the one-shot variant the probe's connection
configuration bracket-wraps the address for IPv6 (and sets the `ipv6`
flag) and uses the IPv4 address as-is. In the pool variant, `createPool`
uses the IPv4 address as-is, while for IPv6 it strips every square
bracket from the host (leaving a bracket-free host, unchanged when the
address had no brackets) and selects the family via `family: 6`. -/
theorem connection_target_per_variant (host : String) :
    (OneShot.connectionConfig (some host) Family.IPv6).host =
      some ("[" ++ host ++ "]") ∧
    (OneShot.connectionConfig (some host) Family.IPv6).ipv6 = true ∧
    (OneShot.connectionConfig (some host) Family.IPv4).host = some host ∧
    (OneShot.connectionConfig (some host) Family.IPv4).ipv6 = false ∧
    PoolVar.createPool host Family.IPv4 = { host := host, family := none } ∧
    (PoolVar.createPool host Family.IPv6).family = some 6 ∧
    (∀ c ∈ (PoolVar.createPool host Family.IPv6).host.data, c ≠ '[' ∧ c ≠ ']') ∧
    ((∀ c ∈ host.data, c ≠ '[' ∧ c ≠ ']') →
      (PoolVar.createPool host Family.IPv6).host = host) := by
  refine ⟨rfl, rfl, rfl, rfl, rfl, rfl, ?_, ?_⟩
  · intro c hc
    have hc2 : c ∈ host.data.filter (fun c => !(c == '[' || c == ']')) := hc
    have hp := List.of_mem_filter hc2
    constructor <;> intro hEq <;> subst hEq <;> simp at hp
  · intro hfree
    have hfilter : host.data.filter (fun c => !(c == '[' || c == ']')) = host.data := by
      apply List.filter_eq_self.mpr
      intro a ha
      have h2 := hfree a ha
      simp only [Bool.not_eq_true', Bool.or_eq_false_iff, beq_eq_false_iff_ne, ne_eq]
      exact ⟨h2.1, h2.2⟩
    show String.mk (host.data.filter (fun c => !(c == '[' || c == ']'))) = host
    rw [hfilter]

theorem connection_target_per_variant_witness :
    (OneShot.connectionConfig (some "2001:db8::1") Family.IPv6).host =
      some "[2001:db8::1]" ∧
    (PoolVar.createPool "2001:db8::1" Family.IPv6).host = "2001:db8::1" := by
  have h := connection_target_per_variant "2001:db8::1"
  exact ⟨h.1, h.2.2.2.2.2.2.2 (by decide)⟩

/-!
Claim C6.
-/

/-- Claim C6: once both DNS lookups have completed, the one-shot
`resolveHostname` throws its resolution error exactly when both record
lists are empty; when at least one family yielded records it returns
normally with the first record of each family (the missing family's
entry being `undefined`), leaving that family to the prober. -/
theorem resolveHostname_fails_iff_both_empty (l4 l6 : List String) :
    ((∃ e, OneShot.resolveHostname l4 l6 = .error e) ↔ l4 = [] ∧ l6 = []) ∧
    (¬(l4 = [] ∧ l6 = []) →
      OneShot.resolveHostname l4 l6 = .ok { ipv4 := l4.head?, ipv6 := l6.head? }) := by
  cases l4 <;> cases l6 <;> simp [OneShot.resolveHostname]

theorem resolveHostname_fails_iff_both_empty_witness :
    OneShot.resolveHostname ["10.0.0.1"] [] =
      .ok { ipv4 := some "10.0.0.1", ipv6 := none } :=
  (resolveHostname_fails_iff_both_empty ["10.0.0.1"] []).2 (by simp)

/-!
Claim C7.
-/

/-- Claim C7: when both record lists are non-empty, resolution in both
variants returns exactly the first element of the IPv4 list and the
first element of the IPv6 list; the remaining records do not influence
the result. -/
theorem resolve_returns_first_record (a : String) (t4 : List String)
    (b : String) (t6 : List String) :
    OneShot.resolveHostname (a :: t4) (b :: t6) =
      .ok { ipv4 := some a, ipv6 := some b } ∧
    PoolVar.resolveHostname (a :: t4) (b :: t6) =
      { ipv4 := some a, ipv6 := some b } :=
  ⟨rfl, rfl⟩

/-!
Claim C8.
-/

/-- Claim C8: the IPv4 endpoint answers 500 exactly when resolution
itself throws, in which case the body carries the error message; when
resolution succeeds it answers 200 and the body's `testResult` field
carries the probe's own result — whose serialized `success` flag is
`false` precisely on the Failure variant, so a probe failure is reported
inside a 200 response, not as an HTTP error. -/
theorem ipv4_endpoint_status_contract (ts : String)
    (r4 r6 : Except JsError (List String)) (env : OneShot.ProbeEnv) :
    ((OneShot.ipv4Handler ts r4 r6 env).1 = 500 ↔
      ∃ e, OneShot.resolveHostnameFull r4 r6 = .error e) ∧
    (∀ e, OneShot.resolveHostnameFull r4 r6 = .error e →
      OneShot.ipv4Handler ts r4 r6 env =
        (500, Json.obj [("error", Json.str "IPv4 test failed"),
                        ("message", Json.str e.message),
                        ("timestamp", Json.str ts)])) ∧
    (∀ addresses, OneShot.resolveHostnameFull r4 r6 = .ok addresses →
      (OneShot.ipv4Handler ts r4 r6 env).1 = 200 ∧
      (OneShot.ipv4Handler ts r4 r6 env).2.lookupField "testResult" =
        some (OneShot.probeResultJson
          (OneShot.testConnectionFull addresses.ipv4 Family.IPv4 env).result)) ∧
    (∀ r : OneShot.ProbeResult,
      (OneShot.probeResultJson r).lookupField "success" =
        some (Json.bool r.isSuccess)) := by
  refine ⟨?_, ?_, ?_, ?_⟩
  · cases h : OneShot.resolveHostnameFull r4 r6 with
    | error e => simp [OneShot.ipv4Handler, h]
    | ok addresses => simp [OneShot.ipv4Handler, h]
  · intro e h
    unfold OneShot.ipv4Handler
    rw [h]
  · intro addresses h
    have hh : OneShot.ipv4Handler ts r4 r6 env =
        (200, Json.obj [("timestamp", Json.str ts),
                        ("ipv4Address", optStrJson addresses.ipv4),
                        ("testResult", OneShot.probeResultJson
                          (OneShot.testConnectionFull addresses.ipv4 Family.IPv4
                            env).result)]) := by
      unfold OneShot.ipv4Handler
      rw [h]
    rw [hh]
    exact ⟨rfl, rfl⟩
  · intro r
    cases r <;> rfl

theorem ipv4_endpoint_status_contract_witness :
    OneShot.ipv4Handler "2024-01-01T00:00:00.000Z"
        (.error { message := "queryA ENODATA example.invalid" }) (.ok []) okEnv =
      (500, Json.obj [("error", Json.str "IPv4 test failed"),
                      ("message", Json.str "queryA ENODATA example.invalid"),
                      ("timestamp", Json.str "2024-01-01T00:00:00.000Z")]) :=
  (ipv4_endpoint_status_contract "2024-01-01T00:00:00.000Z"
      (.error { message := "queryA ENODATA example.invalid" }) (.ok []) okEnv).2.1
    { message := "queryA ENODATA example.invalid" } rfl

/-!
Claim C9.
-/

/-- Claim C9: once the transport check and the connection have
succeeded, the probe submits the fixed liveness query first and the
fixed server-identity query second — both (in that order) unless the
first fails, in which case the second is never submitted — and the
result is the Success variant carrying both result sets exactly when
both queries succeed; a failure of either query is returned as the
Failure variant. -/
theorem probe_two_queries_success_iff (host : Option String) (version : Family)
    (env : OneShot.ProbeEnv)
    (hnet : env.netCheck host = .ok ())
    (hconn : env.connect (OneShot.connectionConfig host version) = .ok ()) :
    ((∃ rows connectionInfo,
        env.query OneShot.sql1 = .ok rows ∧
        env.query OneShot.sql2 = .ok connectionInfo ∧
        (OneShot.testConnectionFull host version env).queriesExecuted =
          [OneShot.sql1, OneShot.sql2] ∧
        (OneShot.testConnectionFull host version env).result =
          .success rows connectionInfo) ∨
     (∃ rows e,
        env.query OneShot.sql1 = .ok rows ∧
        env.query OneShot.sql2 = .error e ∧
        (OneShot.testConnectionFull host version env).queriesExecuted =
          [OneShot.sql1, OneShot.sql2] ∧
        (OneShot.testConnectionFull host version env).result =
          OneShot.failureOf e) ∨
     (∃ e,
        env.query OneShot.sql1 = .error e ∧
        (OneShot.testConnectionFull host version env).queriesExecuted =
          [OneShot.sql1] ∧
        (OneShot.testConnectionFull host version env).result =
          OneShot.failureOf e)) ∧
    ((OneShot.testConnectionFull host version env).result.isSuccess = true ↔
      (∃ rows, env.query OneShot.sql1 = .ok rows) ∧
      (∃ connectionInfo, env.query OneShot.sql2 = .ok connectionInfo)) := by
  cases hq1 : env.query OneShot.sql1 with
  | error e =>
      have hfull : OneShot.testConnectionFull host version env =
          { result := OneShot.failureOf e, queriesExecuted := [OneShot.sql1],
            connectionOpened := true, closeCalls := 0 } := by
        unfold OneShot.testConnectionFull
        rw [hnet, hconn, hq1]
      refine ⟨Or.inr (Or.inr ⟨e, rfl, by rw [hfull], by rw [hfull]⟩), ?_⟩
      rw [hfull]
      simp [OneShot.failureOf, OneShot.ProbeResult.isSuccess, hq1]
  | ok rows =>
      cases hq2 : env.query OneShot.sql2 with
      | error e =>
          have hfull : OneShot.testConnectionFull host version env =
              { result := OneShot.failureOf e,
                queriesExecuted := [OneShot.sql1, OneShot.sql2],
                connectionOpened := true, closeCalls := 0 } := by
            unfold OneShot.testConnectionFull
            rw [hnet, hconn, hq1, hq2]
          refine ⟨Or.inr (Or.inl ⟨rows, e, rfl, rfl, by rw [hfull], by rw [hfull]⟩), ?_⟩
          rw [hfull]
          simp [OneShot.failureOf, OneShot.ProbeResult.isSuccess, hq2]
      | ok connectionInfo =>
          have hfull : OneShot.testConnectionFull host version env =
              { result := .success rows connectionInfo,
                queriesExecuted := [OneShot.sql1, OneShot.sql2],
                connectionOpened := true, closeCalls := 1 } := by
            unfold OneShot.testConnectionFull
            rw [hnet, hconn, hq1, hq2]
          refine ⟨Or.inl ⟨rows, connectionInfo, rfl, rfl, by rw [hfull], by rw [hfull]⟩, ?_⟩
          rw [hfull]
          simp [OneShot.ProbeResult.isSuccess, hq1, hq2]

theorem probe_two_queries_success_iff_witness :
    (OneShot.testConnectionFull (some "10.0.0.1") Family.IPv4 okEnv).result.isSuccess
      = true :=
  (probe_two_queries_success_iff (some "10.0.0.1") Family.IPv4 okEnv rfl rfl).2.mpr
    ⟨⟨testRows, rfl⟩, ⟨infoRows, rfl⟩⟩

/-!
Claim C10.
-/

/-- Claim C10: in the one-shot variant, when exactly one family's record
list is empty, `resolveHostname` returns normally with that family's
address `undefined`; the endpoint for the missing family still proceeds
to the probe with the `undefined` address and — the transport check on
it failing — answers 200 carrying the probe's Failure result, not a
resolution error. -/
theorem missing_family_becomes_probe_failure (ts : String)
    (a : String) (t4 : List String) (b : String) (t6 : List String)
    (env : OneShot.ProbeEnv) (e : JsError)
    (h : env.netCheck none = .error e) :
    OneShot.resolveHostname (a :: t4) [] = .ok { ipv4 := some a, ipv6 := none } ∧
    (OneShot.ipv6Handler ts (.ok (a :: t4)) (.ok []) env).1 = 200 ∧
    (OneShot.ipv6Handler ts (.ok (a :: t4)) (.ok []) env).2.lookupField "testResult" =
      some (OneShot.probeResultJson (OneShot.failureOf e)) ∧
    (OneShot.failureOf e).isSuccess = false ∧
    OneShot.resolveHostname [] (b :: t6) = .ok { ipv4 := none, ipv6 := some b } ∧
    (OneShot.ipv4Handler ts (.ok []) (.ok (b :: t6)) env).1 = 200 ∧
    (OneShot.ipv4Handler ts (.ok []) (.ok (b :: t6)) env).2.lookupField "testResult" =
      some (OneShot.probeResultJson (OneShot.failureOf e)) := by
  have hfull : OneShot.testConnectionFull none Family.IPv6 env =
      { result := OneShot.failureOf e, queriesExecuted := [],
        connectionOpened := false, closeCalls := 0 } := by
    unfold OneShot.testConnectionFull
    rw [h]
  have hfull4 : OneShot.testConnectionFull none Family.IPv4 env =
      { result := OneShot.failureOf e, queriesExecuted := [],
        connectionOpened := false, closeCalls := 0 } := by
    unfold OneShot.testConnectionFull
    rw [h]
  have hh6 : OneShot.ipv6Handler ts (.ok (a :: t4)) (.ok []) env =
      (200, Json.obj [("timestamp", Json.str ts),
                      ("ipv6Address", optStrJson none),
                      ("testResult", OneShot.probeResultJson
                        (OneShot.testConnectionFull none Family.IPv6 env).result)]) :=
    rfl
  have hh4 : OneShot.ipv4Handler ts (.ok []) (.ok (b :: t6)) env =
      (200, Json.obj [("timestamp", Json.str ts),
                      ("ipv4Address", optStrJson none),
                      ("testResult", OneShot.probeResultJson
                        (OneShot.testConnectionFull none Family.IPv4 env).result)]) :=
    rfl
  refine ⟨rfl, ?_, ?_, rfl, rfl, ?_, ?_⟩
  · rw [hh6]
  · rw [hh6, hfull]
    rfl
  · rw [hh4]
  · rw [hh4, hfull4]
    rfl

theorem missing_family_becomes_probe_failure_witness :
    (OneShot.ipv6Handler "2024-01-01T00:00:00.000Z" (.ok ["10.0.0.1"]) (.ok [])
        noneFailEnv).1 = 200 ∧
    (OneShot.ipv6Handler "2024-01-01T00:00:00.000Z" (.ok ["10.0.0.1"]) (.ok [])
        noneFailEnv).2.lookupField "testResult" =
      some (OneShot.probeResultJson (OneShot.failureOf timeoutError)) := by
  have h := missing_family_becomes_probe_failure "2024-01-01T00:00:00.000Z"
    "10.0.0.1" [] "2001:db8::1" [] noneFailEnv timeoutError rfl
  exact ⟨h.2.1, h.2.2.1⟩
